import Mathlib

/-!
Howdy PAM module: result classifier, preflight gates, race coordinator.

A shallow embedding of `src/pam/main.cc` (`howdy_error`, `howdy_msg`,
`send_message`, `identify`) and `src/pam/optional_task.hh` (`optional_task`).

Effects are made explicit: every function that talks to the outside world
returns a `Result`, the value it returns (or the way it fails to return)
together with the list of observable events it performed, in program order.
Everything `identify` reads from its environment (configuration values,
results of PAM calls, the matcher's termination status, the order in which the
two task threads reach their claim step) is a field of `Env`.
-/

namespace Howdy

/-! ## Constants of the system headers -/

/-- Linux-PAM return code `PAM_SUCCESS`. -/
def PAM_SUCCESS : Int := 0
/-- Linux-PAM return code `PAM_SYSTEM_ERR`. -/
def PAM_SYSTEM_ERR : Int := 4
/-- Linux-PAM return code `PAM_AUTH_ERR`. -/
def PAM_AUTH_ERR : Int := 7
/-- Linux-PAM return code `PAM_AUTHINFO_UNAVAIL`. -/
def PAM_AUTHINFO_UNAVAIL : Int := 9
/-- Linux-PAM return code `PAM_IGNORE`. -/
def PAM_IGNORE : Int := 25
/-- Linux-PAM message style `PAM_ERROR_MSG`. -/
def PAM_ERROR_MSG : Int := 3
/-- Linux-PAM message style `PAM_TEXT_INFO`. -/
def PAM_TEXT_INFO : Int := 4
/-- The syslog priority `LOG_ERR`. -/
def LOG_ERR : Nat := 3
/-- The syslog priority `LOG_NOTICE`. -/
def LOG_NOTICE : Nat := 5
/-- The syslog priority `LOG_INFO`. -/
def LOG_INFO : Nat := 6
/-- The `<cstdlib>` constant `EXIT_SUCCESS`. -/
def EXIT_SUCCESS : Int := 0
/-- The signal number of `SIGTERM`. -/
def SIGTERM : Int := 15

/-! ## The `<sys/wait.h>` status macros (glibc)

`status` is a C `int`; on a two's complement machine `status & 0x7f` is
`status % 128` and `(status & 0xff00) >> 8` is `(status / 256) % 256`, with
the floor division and non-negative remainder of Lean's `Int`. -/

/-- The macro `WIFEXITED(status)`, glibc: `((status) & 0x7f) == 0`. -/
def WIFEXITED (status : Int) : Bool := status % 128 == 0

/-- The macro `WEXITSTATUS(status)`, glibc: `((status) & 0xff00) >> 8`. -/
def WEXITSTATUS (status : Int) : Int := (status / 256) % 256

/-- Conversion of an `int` to `signed char` (8 bits, two's complement). -/
def to_signed_char (x : Int) : Int :=
  if x % 256 < 128 then x % 256 else x % 256 - 256

/-- The macro `WIFSIGNALED(status)`, glibc:
`((signed char) (((status) & 0x7f) + 1) >> 1) > 0`; the C truth value, 0 or 1. -/
def WIFSIGNALED (status : Int) : Int :=
  if to_signed_char (status % 128 + 1) / 2 > 0 then 1 else 0

/-- The macro `WTERMSIG(status)`, glibc: `(status) & 0x7f`: the number of the
signal that terminated the process. `howdy_error` does not use it; it is here
to say what a signal number is. -/
def WTERMSIG (status : Int) : Int := status % 128

/-- The raw status `wait` stores for a process that exited with `code`
(glibc `W_EXITCODE(code, 0)`, that is `code << 8`). -/
def exited (code : Nat) : Int := (code : Int) * 256

/-- The raw status `wait` stores for a process killed by signal `sig`
(`sig | 0x80` when a core was dumped). -/
def signaled (sig : Nat) (core : Bool) : Int :=
  (sig : Int) + (if core then 128 else 0)

/-! ## Strings -/

/-- A `const char *` argument: `some s` when it points at the first character of
the NUL-terminated string `s`, `none` when it points outside the string object
it was computed from, so that the characters read through it are not
determined by the program. -/
abbrev CString := Option String

/-- The call `dgettext(domainname, msgid)` with no catalogue installed for the
domain: it returns `msgid` itself (message catalogues are outside the module). -/
def dgettext (_domainname : String) (msgid : String) : String := msgid

/-- The C expression `s + n` for a `char *s` pointing at a string literal:
the pointer `n` characters further. Up to the terminating NUL (`n` equal to
the length) it points at the rest of the literal; beyond, or before the start,
it points outside the literal. (The literals it is used on are ASCII, one
byte per character.) -/
def ptr_add (s : String) (n : Int) : CString :=
  if 0 ≤ n ∧ n ≤ (s.length : Int) then some (s.drop n.toNat) else none

/-- Search of `pat` in `s` from the left; `pos` is the index of the head of `s`
in the whole string. -/
def find_from : List Char → List Char → Nat → Option Nat
  | [], pat, pos => if pat.isPrefixOf [] then some pos else none
  | c :: t, pat, pos =>
    if pat.isPrefixOf (c :: t) then some pos else find_from t pat (pos + 1)

/-- The call `s.find(pat)` of `std::string`: the position of the first
occurrence, `none` for `npos`. -/
def cxx_find (s pat : String) : Option Nat := find_from s.data pat.data 0

/-- The call `s.replace(pos, len, r)` of `std::string`, `pos` being the result
of a `find`: `none` when `std::out_of_range` is thrown (`pos` is `npos` or
greater than the size). -/
def cxx_replace (s : String) (pos : Option Nat) (len : Nat) (r : String) :
    Option String :=
  match pos with
  | none => none
  | some p =>
    if p ≤ s.length then some (String.mk (s.data.take p ++ r.data ++ s.data.drop (p + len)))
    else none

/-! ## Observable events and results -/

/-- The two background tasks of `identify`. -/
inductive TaskId
  | child
  | pass
  deriving DecidableEq, Repr

/-- An argument of a syslog format string. -/
inductive LogArg
  | int (n : Int)
  | strsignal (n : Int)
  | strerror (n : Int)
  deriving DecidableEq, Repr

/-- What a call leaves behind, as far as an observer can tell. -/
inductive Event
  /-- The call `syslog(priority, format, args...)`. -/
  | syslog (priority : Nat) (format : String) (args : List LogArg)
  /-- A message of style `type` sent through the conversation function, which
  answered `res`. -/
  | conv (type : Int) (message : CString) (res : Int)
  /-- The call `pam_get_user`. -/
  | pam_get_user
  /-- The call `posix_spawnp` of the matcher for `username`. -/
  | posix_spawnp (username : String)
  /-- A thread was started for the task (`optional_task::activate`). -/
  | activate (t : TaskId)
  /-- The call `kill(child_pid, sig)`. -/
  | kill (sig : Int)
  /-- The call `pthread_cancel` on the thread of the task. -/
  | pthread_cancel (t : TaskId)
  /-- The call `std::thread::join` on the thread of the task. -/
  | join (t : TaskId)
  /-- The call `optional_task::get` on the task. -/
  | get (t : TaskId)
  deriving DecidableEq, Repr

/-- Ways of not returning normally. -/
inductive Fault
  /-- The `assert` in `optional_task::get` failed. -/
  | assertion
  /-- A `std::system_error` was thrown (`std::thread::join` on a thread that
  is not joinable). -/
  | system_error
  /-- A `std::out_of_range` was thrown (`std::string::replace`). -/
  | out_of_range
  /-- The call `std::terminate` (a joinable `std::thread` assigned to or destroyed). -/
  | terminate
  deriving DecidableEq, Repr

/-- How a call ends. -/
inductive Ret
  /-- It returns the PAM code `c`. -/
  | code (c : Int)
  /-- It raises a fault. -/
  | fault (f : Fault)
  /-- It waits for ever on the condition variable. -/
  | blocked
  deriving DecidableEq, Repr

/-- The end of a call and the events it performed before, in order. -/
structure Result where
  ret : Ret
  events : List Event
  deriving DecidableEq, Repr

/-- The events `evs` happen, then the computation `r`. -/
def Result.after (evs : List Event) (r : Result) : Result :=
  ⟨r.ret, evs ++ r.events⟩

/-- A conversation function: message style and text to return code. -/
abbrev ConvFunction := Int → CString → Int

/-- The event of calling `conv_function(type, message)`. -/
def call_conv (conv_function : ConvFunction) (type : Int) (message : CString) : Event :=
  .conv type message (conv_function type message)

/-! ## Configuration -/

/-- Modelled from the spec: `main.hh`, which declares `enum class Workaround`
and `get_workaround`, is not among the sources. `identify` names the
enumerators `Off` and `Input`; the comment "If the workaround is native" in
`identify` names the third mode, and the data model of the specification
allows "additional variants". -/
inductive Workaround
  | Off
  | Input
  | Native
  deriving DecidableEq, Repr

/-- What `identify` and `howdy_msg` read from the `INIReader`: each field is
the value of the corresponding `GetBoolean("core", key, default)` call,
`ParseError` is `reader.ParseError()`, and `workaround` is
`get_workaround(reader.GetString("core", "workaround", "input"))`. -/
structure INIReader where
  ParseError : Int
  disabled : Bool
  ignore_ssh : Bool
  ignore_closed_lid : Bool
  detection_notice : Bool
  no_confirmation : Bool
  workaround : Workaround
  deriving DecidableEq, Repr

/-! ## The result classifier: `howdy_error`, `howdy_msg` -/

/-- The function `howdy_error` of `main.cc`. -/
def howdy_error (status : Int) (conv_function : ConvFunction) : Result :=
  if WIFEXITED status then
    let status := WEXITSTATUS status
    if status = 10 then
      ⟨.code PAM_AUTH_ERR,
        [call_conv conv_function PAM_ERROR_MSG (some (dgettext "pam" "There is no face model known")),
         .syslog LOG_NOTICE "Failure, no face model known" []]⟩
    else if status = 11 then
      ⟨.code PAM_AUTH_ERR, [.syslog LOG_ERR "Failure, timeout reached" []]⟩
    else if status = 12 then
      ⟨.code PAM_AUTH_ERR, [.syslog LOG_ERR "Failure, general abort" []]⟩
    else if status = 13 then
      ⟨.code PAM_AUTH_ERR,
        [call_conv conv_function PAM_ERROR_MSG (some (dgettext "pam" "Face detection image too dark")),
         .syslog LOG_ERR "Failure, image too dark" []]⟩
    else
      ⟨.code PAM_AUTH_ERR,
        [call_conv conv_function PAM_ERROR_MSG (ptr_add (dgettext "pam" "Unknown error: ") status),
         .syslog LOG_ERR "Failure, unknown error %d" [.int status]]⟩
  else
    let status := WIFSIGNALED status
    ⟨.code PAM_AUTH_ERR,
      [.syslog LOG_ERR "Child killed by signal %s (%d)" [.strsignal status, .int status]]⟩

/-- The function `howdy_msg` of `main.cc`. -/
def howdy_msg (username : String) (status : Int) (reader : INIReader)
    (conv_function : ConvFunction) : Result :=
  if status ≠ EXIT_SUCCESS then
    howdy_error status conv_function
  else if !reader.no_confirmation then
    let confirm_text := dgettext "pam" "Identified face as \x7b\x7d"
    match cxx_replace confirm_text (cxx_find confirm_text "\x7b\x7d") 2 username with
    | none => ⟨.fault .out_of_range, []⟩
    | some identify_msg =>
      ⟨.code PAM_SUCCESS,
        [call_conv conv_function PAM_TEXT_INFO (some identify_msg),
         .syslog LOG_INFO "Login approved" []]⟩
  else
    ⟨.code PAM_SUCCESS, [.syslog LOG_INFO "Login approved" []]⟩

/-- The function `send_message` of `main.cc`: it builds one `pam_message` and
calls the conversation function of `conv` on it. -/
def send_message (conv : ConvFunction) (type : Int) (message : CString) : Int :=
  conv type message

/-! ## The cancellable task: `optional_task.hh` -/

/-- The state of an `optional_task<T>` object: `joinable` is
`_thread.joinable()`, `spawned` and `is_active` are the two atomic flags. The
packaged task and its future carry the value the thread computes; that value
is an input of `identify` (see `Env`) and is not stored here. -/
structure optional_task where
  joinable : Bool
  spawned : Bool
  is_active : Bool
  deriving DecidableEq, Repr

/-- What `stop` does to the thread of a task. -/
inductive ThreadOp
  | pthread_cancel
  | join
  deriving DecidableEq, Repr

/-- The constructor `optional_task(std::packaged_task<T()>)`. It initialises
`_task` and `_future`; `_thread` is default-constructed (not joinable) and the
two flags are default-initialised `std::atomic<bool>` members. Their initial
values are the arguments: `false`, `false` where the standard library
value-initialises atomics (C++20), any values before that. -/
def optional_task.new (spawned is_active : Bool) : optional_task :=
  ⟨false, spawned, is_active⟩

/-- The method `optional_task::activate`. Assigning to a `std::thread` that is
joinable calls `std::terminate`. -/
def optional_task.activate (t : optional_task) : Except Fault optional_task :=
  if t.joinable then .error .terminate else .ok ⟨true, true, true⟩

/-- The method `optional_task::get`: the `assert`, then `_future.get()`. -/
def optional_task.get (t : optional_task) : Except Fault Unit :=
  if !t.is_active && t.spawned then .ok () else .error .assertion

/-- The method `optional_task::stop`: the task afterwards and what was done to
its thread. `std::thread::join` throws `std::system_error` when the thread is
not joinable. -/
def optional_task.stop (t : optional_task) (force : Bool) :
    Except Fault (optional_task × List ThreadOp) :=
  if !(t.is_active && t.joinable) && t.spawned then
    .ok (⟨t.joinable, t.spawned, false⟩, [])
  else if t.joinable then
    .ok (⟨false, t.spawned, false⟩, (if force then [.pthread_cancel] else []) ++ [.join])
  else
    .error .system_error

/-- The destructor `~optional_task`, followed by the destructor of the
`_thread` member, which calls `std::terminate` on a joinable thread. -/
def optional_task.destroy (t : optional_task) : Except Fault (List ThreadOp) :=
  match (if t.is_active && t.spawned then t.stop false else .ok (t, [])) with
  | .error f => .error f
  | .ok (t, ops) => if t.joinable then .error .terminate else .ok ops

/-- The event of a thread operation on the thread of task `id`. -/
def ThreadOp.event (id : TaskId) : ThreadOp → Event
  | .pthread_cancel => .pthread_cancel id
  | .join => .join id

/-! ## The confirmation cell -/

/-- Modelled from the spec: `enum class Type` of `main.hh`, which is not among
the sources; `identify` names its enumerators `Unset`, `Howdy` and `Pam`. -/
inductive ConfirmationType
  | Unset
  | Howdy
  | Pam
  deriving DecidableEq, Repr

/-- The tag a task stores in the cell. -/
def TaskId.tag : TaskId → ConfirmationType
  | .child => .Howdy
  | .pass => .Pam

/-- The claim step at the end of each task lambda of `identify`, executed under
the mutex `m`: load `confirmation_type`; store the own tag if it is `Unset`. -/
def claim (who : TaskId) (confirmation_type : ConfirmationType) : ConfirmationType :=
  if confirmation_type = .Unset then who.tag else confirmation_type

/-- The cell after the claim steps of `sched`, executed in that order. -/
def run_claims : List TaskId → ConfirmationType → ConfirmationType
  | [], c => c
  | who :: rest, c => run_claims rest (claim who c)

/-- The values the cell holds after each claim step of `sched`, in order. -/
def cell_history : List TaskId → ConfirmationType → List ConfirmationType
  | [], _ => []
  | who :: rest, c => claim who c :: cell_history rest (claim who c)

/-! ## The coordinator: `identify` -/

/-- Everything `identify` reads from outside the function. -/
structure Env where
  /-- The parsed configuration file. -/
  reader : INIReader
  /-- The code returned by `pam_get_item(pamh, PAM_CONV, ...)`. -/
  pam_get_item : Int
  /-- The conversation function of the `pam_conv` obtained. -/
  conv : ConvFunction
  /-- The value of `getenv("SSH_CONNECTION")`, `none` for a null pointer. -/
  SSH_CONNECTION : Option String
  /-- The value of `getenv("SSH_CLIENT")`. -/
  SSH_CLIENT : Option String
  /-- The value of `getenv("SSHD_OPTS")`. -/
  SSHD_OPTS : Option String
  /-- For each of the `gl_pathc` paths the glob found, in order, the text
  `getline` read from the file (none when the glob failed: `gl_pathc` is 0). -/
  lid_states : List String
  /-- The code returned by `pam_get_user` and the user name it stored. -/
  pam_get_user : Int × String
  /-- The value returned by `posix_spawnp`, and `errno` after it. -/
  posix_spawnp : Int
  errno : Int
  /-- The initial values of the flags of `child_task` (see `optional_task.new`). -/
  child_flags : Bool × Bool
  /-- The initial values of the flags of `pass_task`. -/
  pass_flags : Bool × Bool
  /-- The status `wait` stores once the matcher process has terminated. -/
  status : Int
  /-- The code returned by `pam_get_authtok` and the token it stored. -/
  pam_get_authtok : Int × String
  /-- The order in which the scheduler lets the task threads run their claim
  step before the coordinator wakes up; an entry for a task that was not
  started has no effect. -/
  sched : List TaskId
  /-- Whether `child_task.wait(2.5s)` returned `future_status::timeout`. -/
  wait_timeout : Bool

/-- The loop of `identify` over the lid state files: true when it returns
from inside the loop, that is when `lid_state.find("closed")` is not `npos`
for some file. -/
def lid_closed : List String → Bool
  | [] => false
  | lid_state :: rest =>
    if (cxx_find lid_state "closed").isSome then true else lid_closed rest

/-- Whether a thread runs the task: `child_task` is always activated,
`pass_task` only under `if (auth_tok)`. -/
def started (auth_tok : Bool) : TaskId → Bool
  | .child => true
  | .pass => auth_tok

/-- The value of `confirmation_type` the coordinator finds when
`cv.wait(lk, pred)` returns; `Unset` when no started task ever claims, in which
case the wait does not return. -/
def race_cell (e : Env) (auth_tok : Bool) : ConfirmationType :=
  run_claims (e.sched.filter (started auth_tok)) .Unset

/-- The return of `identify` once both tasks exist: the local objects are
destroyed in reverse order of construction, `pass_task` then `child_task`. -/
def leave (child_task pass_task : optional_task) (r : Result) : Result :=
  match pass_task.destroy with
  | .error f => ⟨.fault f, r.events⟩
  | .ok ops₁ =>
    match child_task.destroy with
    | .error f => ⟨.fault f, r.events ++ ops₁.map (ThreadOp.event .pass)⟩
    | .ok ops₂ =>
      ⟨r.ret, r.events ++ ops₁.map (ThreadOp.event .pass) ++ ops₂.map (ThreadOp.event .child)⟩

/-- The second half of `identify`, from the declaration of the mutex to the
end: the two tasks, the wait on the cell, and the branch on the winner.
`auth_tok` is the flag as `identify` has adjusted it. -/
def identify_race (e : Env) (username : String) (auth_tok : Bool) : Result :=
  let reader := e.reader
  let workaround := reader.workaround
  let conv_function := send_message e.conv
  match (optional_task.new e.child_flags.1 e.child_flags.2).activate with
  | .error f => ⟨.fault f, []⟩
  | .ok child_task =>
  Result.after [.activate .child] <|
  match (if auth_tok then (optional_task.new e.pass_flags.1 e.pass_flags.2).activate
         else .ok (optional_task.new e.pass_flags.1 e.pass_flags.2)) with
  | .error f => ⟨.fault f, []⟩
  | .ok pass_task =>
  Result.after (if auth_tok then [.activate .pass] else []) <|
  match race_cell e auth_tok with
  | .Unset => ⟨.blocked, []⟩
  | .Howdy =>
    match child_task.stop false with
    | .error f => ⟨.fault f, []⟩
    | .ok (child_task, ops) =>
    Result.after (ops.map (ThreadOp.event .child)) <|
    match (if auth_tok && pass_task.is_active then pass_task.stop true
           else .ok (pass_task, [])) with
    | .error f => ⟨.fault f, []⟩
    | .ok (pass_task, ops) =>
    Result.after (ops.map (ThreadOp.event .pass)) <|
    Result.after [.get .child] <|
    match child_task.get with
    | .error f => ⟨.fault f, []⟩
    | .ok () =>
    let howdy_status := e.status
    leave child_task pass_task (howdy_msg username howdy_status reader conv_function)
  | .Pam =>
    Result.after (if e.wait_timeout then [.kill SIGTERM] else []) <|
    match child_task.stop false with
    | .error f => ⟨.fault f, []⟩
    | .ok (child_task, ops) =>
    Result.after (ops.map (ThreadOp.event .child)) <|
    match (if workaround = .Input && auth_tok then pass_task.stop false
           else .ok (pass_task, [])) with
    | .error f => ⟨.fault f, []⟩
    | .ok (pass_task, ops) =>
    Result.after (ops.map (ThreadOp.event .pass)) <|
    Result.after [.get .pass] <|
    match pass_task.get with
    | .error f => ⟨.fault f, []⟩
    | .ok () =>
    let pam_res := e.pam_get_authtok.1
    let password := e.pam_get_authtok.2
    if pam_res ≠ PAM_SUCCESS then
      leave child_task pass_task ⟨.code pam_res, []⟩
    else
    Result.after [.get .child] <|
    match child_task.get with
    | .error f => ⟨.fault f, []⟩
    | .ok () =>
    let howdy_status := e.status
    if password.length = 0 then
      leave child_task pass_task (howdy_msg username howdy_status reader conv_function)
    else
      leave child_task pass_task ⟨.code PAM_IGNORE, []⟩

/-- The first statement of `identify`: with the workaround `Off` the password
is not asked for. The value of `auth_tok` afterwards. -/
def adjust_auth_tok (workaround : Workaround) (auth_tok : Bool) : Bool :=
  if workaround = .Off && auth_tok then false else auth_tok

/-- The detection notice of `identify`: when enabled, one informational
message; a log entry when sending it fails. Nothing else depends on it. -/
def detection_notice (reader : INIReader) (conv_function : ConvFunction) : List Event :=
  if reader.detection_notice then
    call_conv conv_function PAM_TEXT_INFO (some (dgettext "pam" "Attempting facial authentication")) ::
      (if conv_function PAM_TEXT_INFO (some (dgettext "pam" "Attempting facial authentication"))
          ≠ PAM_SUCCESS then
        [.syslog LOG_ERR "Failed to send detection notice" []]
      else [])
  else []

/-- The function `identify` of `main.cc`. -/
def identify (e : Env) (auth_tok : Bool) : Result :=
  let reader := e.reader
  let workaround := reader.workaround
  let auth_tok := adjust_auth_tok workaround auth_tok
  if e.pam_get_item ≠ PAM_SUCCESS then
    ⟨.code e.pam_get_item, [.syslog LOG_ERR "Failed to acquire conversation" []]⟩
  else
  let conv_function := send_message e.conv
  if reader.ParseError < 0 then
    ⟨.code PAM_SYSTEM_ERR, [.syslog LOG_ERR "Failed to parse the configuration file" []]⟩
  else if reader.disabled then
    ⟨.code PAM_AUTHINFO_UNAVAIL, [.syslog LOG_INFO "Skipped authentication, Howdy is disabled" []]⟩
  else if reader.ignore_ssh &&
      (e.SSH_CONNECTION.isSome || e.SSH_CLIENT.isSome || e.SSHD_OPTS.isSome) then
    ⟨.code PAM_AUTHINFO_UNAVAIL, [.syslog LOG_INFO "Skipped authentication, SSH session detected" []]⟩
  else if reader.ignore_closed_lid && lid_closed e.lid_states then
    ⟨.code PAM_AUTHINFO_UNAVAIL, [.syslog LOG_INFO "Skipped authentication, closed lid detected" []]⟩
  else
  Result.after (detection_notice reader conv_function) <|
  Result.after [.pam_get_user] <|
  let username := e.pam_get_user.2
  if e.pam_get_user.1 ≠ PAM_SUCCESS then
    ⟨.code e.pam_get_user.1, [.syslog LOG_ERR "Failed to get username" []]⟩
  else
  Result.after [.posix_spawnp username] <|
  if e.posix_spawnp < 0 then
    ⟨.code PAM_SYSTEM_ERR,
      [.syslog LOG_ERR "Can\x27t spawn the howdy process: %s (%d)" [.strerror e.errno, .int e.errno]]⟩
  else
    identify_race e username auth_tok

/-- The entry point `pam_sm_authenticate`. -/
def pam_sm_authenticate (e : Env) : Result := identify e true

/-- The entry point `pam_sm_open_session`. -/
def pam_sm_open_session (e : Env) : Result := identify e false

/-- The conditions under which `identify` gets as far as its two tasks: the
conversation is acquired, the configuration parsed, no gate fires, the user
name is obtained and the matcher spawned. -/
def reaches_race (e : Env) : Bool :=
  e.pam_get_item == PAM_SUCCESS && !decide (e.reader.ParseError < 0) && !e.reader.disabled &&
  !(e.reader.ignore_ssh &&
      (e.SSH_CONNECTION.isSome || e.SSH_CLIENT.isSome || e.SSHD_OPTS.isSome)) &&
  !(e.reader.ignore_closed_lid && lid_closed e.lid_states) &&
  e.pam_get_user.1 == PAM_SUCCESS && !decide (e.posix_spawnp < 0)

/-! ## Sample inputs -/

/-- The configuration `identify` sees when the file sets none of the keys:
the defaults of its `GetBoolean` and `GetString` calls. -/
def default_reader : INIReader :=
  ⟨0, false, true, true, false, true, .Input⟩

/-- An authentication attempt on a laptop with its lid open, not over SSH:
user "bob", the matcher exits with code 0, the user has typed a password, and
the password task reaches its claim step first. -/
def sample_env : Env :=
  ⟨default_reader, 0, fun _ _ => 0, none, none, none, ["state:      open\n"], (0, "bob"), 0, 0,
    (false, false), (false, false), 0, (0, "hunter2"), [.pass, .child], false⟩

/-- The sample attempt with the workaround `native`. -/
def native_env : Env :=
  ⟨⟨0, false, true, true, false, true, .Native⟩, 0, fun _ _ => 0, none, none, none,
    ["state:      open\n"], (0, "bob"), 0, 0,
    (false, false), (false, false), 0, (0, "hunter2"), [.pass, .child], false⟩

/-- The sample attempt with the lid closed. -/
def closed_lid_env : Env :=
  ⟨default_reader, 0, fun _ _ => 0, none, none, none, ["state:      closed\n"], (0, "bob"), 0, 0,
    (false, false), (false, false), 0, (0, "hunter2"), [.pass, .child], false⟩

/-! ## Lemmas on the classifier -/

/-- Whatever the status, `howdy_error` returns `PAM_AUTH_ERR`. -/
theorem howdy_error_ret (status : Int) (conv_function : ConvFunction) :
    (howdy_error status conv_function).ret = .code PAM_AUTH_ERR := by
  unfold howdy_error
  split
  · simp only []
    split_ifs <;> rfl
  · rfl

/-- The confirmation text built by `howdy_msg`: the placeholder is found at
position 19 and replaced by the user name. -/
theorem confirm_text_replace (username : String) :
    cxx_replace (dgettext "pam" "Identified face as \x7b\x7d")
      (cxx_find (dgettext "pam" "Identified face as \x7b\x7d") "\x7b\x7d") 2 username
      = some ("Identified face as " ++ username) := by
  have h : cxx_find (dgettext "pam" "Identified face as \x7b\x7d") "\x7b\x7d" = some 19 := by
    decide
  rw [h]
  simp only [cxx_replace, dgettext]
  rw [if_pos (by decide)]
  congr 1
  apply String.ext
  simp

/-- The decision of `howdy_msg` is a function of the status alone. -/
theorem howdy_msg_ret (username : String) (status : Int) (reader : INIReader)
    (conv_function : ConvFunction) :
    (howdy_msg username status reader conv_function).ret
      = if status = 0 then .code PAM_SUCCESS else .code PAM_AUTH_ERR := by
  unfold howdy_msg
  by_cases h : status = 0
  · subst h
    simp only [EXIT_SUCCESS, ne_eq, not_true_eq_false, if_false, if_true]
    rw [confirm_text_replace]
    cases reader.no_confirmation <;> rfl
  · rw [if_pos (by simpa [EXIT_SUCCESS] using h), if_neg h]
    exact howdy_error_ret _ _

/-- The status macros on the status of a process that exited with `code`. -/
theorem wait_macros_exited (code : Nat) (h : code < 256) :
    WIFEXITED (exited code) = true ∧ WEXITSTATUS (exited code) = code := by
  unfold WIFEXITED WEXITSTATUS exited
  constructor
  · simp only [beq_iff_eq]
    omega
  · omega

/-- The status macros on the status of a process killed by signal `sig`. -/
theorem wait_macros_signaled (sig : Nat) (core : Bool) (h1 : 1 ≤ sig) (h2 : sig ≤ 126) :
    WIFEXITED (signaled sig core) = false ∧ WIFSIGNALED (signaled sig core) = 1 ∧
      WTERMSIG (signaled sig core) = sig := by
  unfold WIFEXITED WIFSIGNALED WTERMSIG signaled to_signed_char
  cases core <;> simp only [Bool.false_eq_true, if_false, if_true, beq_eq_false_iff_ne, ne_eq]
  · refine ⟨by omega, ?_, by omega⟩
    split_ifs <;> omega
  · refine ⟨by omega, ?_, by omega⟩
    split_ifs <;> omega

/-! ## The classifier: claims C1, C4, C5, C6 -/

/-- C1: for every raw status, user name, configuration and conversation
function, `howdy_msg` returns `PAM_SUCCESS` when the status is 0 and
`PAM_AUTH_ERR` for every other status; the decision depends on nothing but the
status, so neither `no_confirmation` nor what the conversation function
answers changes it. -/
theorem howdy_msg_decision (username : String) (status : Int) (reader : INIReader)
    (conv_function : ConvFunction) :
    (howdy_msg username status reader conv_function).ret
      = if status = 0 then .code PAM_SUCCESS else .code PAM_AUTH_ERR :=
  howdy_msg_ret username status reader conv_function

/-- C4: the fixed table of the classifier for the recognised exit codes. Code
10 sends the one error message "There is no face model known" and logs at
notice; code 13 sends the one error message "Face detection image too dark"
and logs at error; codes 11 and 12 send nothing and log at error; code 0 sends
the one informational message "Identified face as " followed by the user name
when `no_confirmation` is false, and no message otherwise. -/
theorem howdy_msg_table (username : String) (reader : INIReader)
    (conv_function : ConvFunction) :
    howdy_msg username (exited 10) reader conv_function
        = ⟨.code PAM_AUTH_ERR,
            [.conv PAM_ERROR_MSG (some "There is no face model known")
                (conv_function PAM_ERROR_MSG (some "There is no face model known")),
             .syslog LOG_NOTICE "Failure, no face model known" []]⟩ ∧
    howdy_msg username (exited 13) reader conv_function
        = ⟨.code PAM_AUTH_ERR,
            [.conv PAM_ERROR_MSG (some "Face detection image too dark")
                (conv_function PAM_ERROR_MSG (some "Face detection image too dark")),
             .syslog LOG_ERR "Failure, image too dark" []]⟩ ∧
    howdy_msg username (exited 11) reader conv_function
        = ⟨.code PAM_AUTH_ERR, [.syslog LOG_ERR "Failure, timeout reached" []]⟩ ∧
    howdy_msg username (exited 12) reader conv_function
        = ⟨.code PAM_AUTH_ERR, [.syslog LOG_ERR "Failure, general abort" []]⟩ ∧
    howdy_msg username (exited 0) reader conv_function
        = ⟨.code PAM_SUCCESS,
            (if reader.no_confirmation then []
             else [.conv PAM_TEXT_INFO (some ("Identified face as " ++ username))
                    (conv_function PAM_TEXT_INFO (some ("Identified face as " ++ username)))])
              ++ [.syslog LOG_INFO "Login approved" []]⟩ := by
  refine ⟨rfl, rfl, rfl, rfl, ?_⟩
  unfold howdy_msg
  rw [if_neg (by decide)]
  simp only []
  rw [confirm_text_replace]
  cases reader.no_confirmation <;> rfl

/-- The text `howdy_error` passes to the conversation function in its default
branch for exit code `N`: the pointer `N` characters into the literal
"Unknown error: " (15 characters), outside the literal from 16 on. -/
theorem unknown_error_text (N : Nat) :
    ptr_add (dgettext "pam" "Unknown error: ") (N : Int)
      = if N ≤ 15 then some ("Unknown error: ".drop N) else none := by
  have hlen : ("Unknown error: ").length = 15 := by decide
  unfold ptr_add dgettext
  rw [hlen]
  by_cases h : N ≤ 15
  · rw [if_pos ⟨by omega, by omega⟩, if_pos h, Int.toNat_ofNat]
  · rw [if_neg (by omega), if_neg h]

/-- C5 (the code departs from the claim): for every exit code `N` other than
0, 10, 11, 12 and 13, `howdy_error` sends exactly one error message, but its
text is never "Unknown error: " followed by `N`: the code adds `N` to the
pointer to the literal, so the text is the literal without its first `N`
characters for `N` up to 15, and characters from beyond the literal after that.
The log entry does carry `N`. -/
theorem howdy_error_unknown_code (N : Nat) (conv_function : ConvFunction)
    (hN : N < 256) (h : N ≠ 0 ∧ N ≠ 10 ∧ N ≠ 11 ∧ N ≠ 12 ∧ N ≠ 13) :
    howdy_error (exited N) conv_function
      = ⟨.code PAM_AUTH_ERR,
          [.conv PAM_ERROR_MSG (if N ≤ 15 then some ("Unknown error: ".drop N) else none)
              (conv_function PAM_ERROR_MSG
                (if N ≤ 15 then some ("Unknown error: ".drop N) else none)),
           .syslog LOG_ERR "Failure, unknown error %d" [.int N]]⟩ ∧
    (if N ≤ 15 then some ("Unknown error: ".drop N) else none)
      ≠ some ("Unknown error: " ++ toString N) := by
  obtain ⟨h0, h10, h11, h12, h13⟩ := h
  constructor
  · unfold howdy_error
    rw [(wait_macros_exited N hN).1, if_pos rfl]
    simp only [(wait_macros_exited N hN).2]
    rw [if_neg (by omega), if_neg (by omega), if_neg (by omega), if_neg (by omega),
      unknown_error_text]
    rfl
  · by_cases hle : N ≤ 15
    · rw [if_pos hle]
      interval_cases N <;> decide
    · rw [if_neg hle]
      exact fun hc => Option.noConfusion hc

/-- Witness of C5: exit code 1; the user is sent "nknown error: ". -/
theorem howdy_error_unknown_code_witness :
    howdy_error (exited 1) (fun _ _ => 0)
      = ⟨.code PAM_AUTH_ERR,
          [.conv PAM_ERROR_MSG (if 1 ≤ 15 then some ("Unknown error: ".drop 1) else none)
              ((fun _ _ => 0) PAM_ERROR_MSG
                (if 1 ≤ 15 then some ("Unknown error: ".drop 1) else none)),
           .syslog LOG_ERR "Failure, unknown error %d" [.int (1 : Nat)]]⟩ ∧
    (if 1 ≤ 15 then some ("Unknown error: ".drop 1) else none)
      ≠ some ("Unknown error: " ++ toString 1) :=
  howdy_error_unknown_code 1 (fun _ _ => 0) (by decide) (by decide)

/-- C6 (the code departs from the claim): for every signal `sig` that can kill
the matcher, with or without a core dump, `howdy_error` sends no message and
returns `PAM_AUTH_ERR`, but the signal number in its log entry is 1, the truth
value of `WIFSIGNALED`, whatever `sig` is; the number of the signal is
`WTERMSIG` of the status, which is `sig`. -/
theorem howdy_error_signal (sig : Nat) (core : Bool) (conv_function : ConvFunction)
    (h1 : 1 ≤ sig) (h2 : sig ≤ 126) :
    howdy_error (signaled sig core) conv_function
      = ⟨.code PAM_AUTH_ERR,
          [.syslog LOG_ERR "Child killed by signal %s (%d)" [.strsignal 1, .int 1]]⟩ ∧
    WTERMSIG (signaled sig core) = sig := by
  obtain ⟨he, hs, ht⟩ := wait_macros_signaled sig core h1 h2
  refine ⟨?_, ht⟩
  unfold howdy_error
  rw [he, if_neg (by decide)]
  simp only [hs]

/-- Witness of C6: the matcher is killed by `SIGTERM` (15), the signal
`identify` itself sends; the log entry says signal 1. -/
theorem howdy_error_signal_witness :
    howdy_error (signaled 15 false) (fun _ _ => 0)
      = ⟨.code PAM_AUTH_ERR,
          [.syslog LOG_ERR "Child killed by signal %s (%d)" [.strsignal 1, .int 1]]⟩ ∧
    WTERMSIG (signaled 15 false) = (15 : Nat) :=
  howdy_error_signal 15 false (fun _ _ => 0) (by decide) (by decide)

/-! ## The confirmation cell: claim C8 -/

/-- A claim step on a cell that is already set leaves it unchanged. -/
theorem claim_of_set (who : TaskId) (c : ConfirmationType) (h : c ≠ .Unset) :
    claim who c = c := by
  unfold claim
  rw [if_neg h]

/-- Once the cell is set, every later claim step finds and leaves the same value. -/
theorem cell_history_of_set (sched : List TaskId) (c : ConfirmationType) (h : c ≠ .Unset) :
    cell_history sched c = List.replicate sched.length c := by
  induction sched with
  | nil => rfl
  | cons who rest ih =>
    simp only [cell_history, claim_of_set who c h, ih, List.length_cons, List.replicate_succ]

/-- Once the cell is set, no sequence of claim steps changes it. -/
theorem run_claims_of_set (sched : List TaskId) (c : ConfirmationType) (h : c ≠ .Unset) :
    run_claims sched c = c := by
  induction sched with
  | nil => rfl
  | cons who rest ih => simp only [run_claims, claim_of_set who c h, ih]

/-- C8: the confirmation cell is written at most once. A claim step leaves a
cell that is `Howdy` or `Pam` unchanged; and for every interleaving of claim
steps starting from `Unset`, with first claimer `who`, the cell holds the tag of
`who` after the first step and after every later step, that tag is `Howdy` or
`Pam`, never `Unset`, and it is the value the coordinator finds at the end. -/
theorem confirmation_cell_write_once (who : TaskId) (rest : List TaskId) :
    (∀ (t : TaskId), claim t .Howdy = .Howdy ∧ claim t .Pam = .Pam) ∧
    cell_history (who :: rest) .Unset = List.replicate (rest.length + 1) who.tag ∧
    run_claims (who :: rest) .Unset = who.tag ∧
    (who.tag = .Howdy ∨ who.tag = .Pam) ∧ who.tag ≠ .Unset := by
  have htag : who.tag ≠ .Unset := by cases who <;> decide
  have hclaim : claim who .Unset = who.tag := rfl
  refine ⟨fun t => ⟨rfl, rfl⟩, ?_, ?_, ?_, htag⟩
  · simp only [cell_history, hclaim, cell_history_of_set rest who.tag htag,
      List.replicate_succ]
  · simp only [run_claims, hclaim, run_claims_of_set rest who.tag htag]
  · cases who
    · exact Or.inl rfl
    · exact Or.inr rfl

/-! ## The cancellable task: claim C10 -/

/-- The search succeeds exactly when the pattern occurs in the text. -/
theorem find_from_isSome (s pat : List Char) (pos : Nat) :
    (find_from s pat pos).isSome = true ↔ pat <:+: s := by
  induction s generalizing pos with
  | nil =>
    unfold find_from
    by_cases h : pat.isPrefixOf [] = true
    · rw [if_pos h]
      simp only [Option.isSome_some, true_iff]
      exact (List.isPrefixOf_iff_prefix.mp h).isInfix
    · rw [if_neg h]
      simp only [Option.isSome_none, Bool.false_eq_true, false_iff]
      intro hi
      apply h
      have : pat = [] := List.eq_nil_of_infix_nil hi
      subst this
      rfl
  | cons c t ih =>
    unfold find_from
    by_cases h : pat.isPrefixOf (c :: t) = true
    · rw [if_pos h]
      simp only [Option.isSome_some, true_iff]
      exact (List.isPrefixOf_iff_prefix.mp h).isInfix
    · rw [if_neg h, ih, List.infix_cons_iff]
      constructor
      · exact Or.inr
      · rintro (hp | hi)
        · exact absurd (List.isPrefixOf_iff_prefix.mpr hp) h
        · exact hi

/-- The loop over the lid state files returns early exactly when the text read
from one of the files contains "closed". -/
theorem lid_closed_iff (lid_states : List String) :
    lid_closed lid_states = true ↔ ∃ s ∈ lid_states, "closed".data <:+: s.data := by
  induction lid_states with
  | nil => simp [lid_closed]
  | cons s rest ih =>
    unfold lid_closed
    by_cases h : (cxx_find s "closed").isSome = true
    · rw [if_pos h]
      simp only [true_iff]
      exact ⟨s, List.mem_cons_self _ _, (find_from_isSome _ _ _).mp h⟩
    · rw [if_neg h, ih]
      constructor
      · rintro ⟨x, hx, hi⟩
        exact ⟨x, List.mem_cons_of_mem _ hx, hi⟩
      · rintro ⟨x, hx, hi⟩
        rcases List.mem_cons.mp hx with rfl | hx
        · exact absurd ((find_from_isSome _ _ _).mpr hi) h
        · exact ⟨x, hx, hi⟩

/-! ## Lemmas on the race -/

/-- The cell after a sequence of claim steps from `Unset` holds the tag of the
first claimer. -/
theorem run_claims_unset (sched : List TaskId) :
    run_claims sched .Unset = match sched with
      | [] => .Unset
      | who :: _ => who.tag := by
  cases sched with
  | nil => rfl
  | cons who rest =>
    have htag : who.tag ≠ .Unset := by cases who <;> decide
    simp only [run_claims]
    exact run_claims_of_set rest _ htag

/-- When the password task is not started, the cell is set by the matcher
task or not at all. -/
theorem race_cell_false (e : Env) :
    race_cell e false = if TaskId.child ∈ e.sched then .Howdy else .Unset := by
  unfold race_cell
  rw [run_claims_unset]
  induction e.sched with
  | nil => rfl
  | cons who rest ih =>
    cases who
    · simp [List.filter, started, TaskId.tag]
    · simp only [List.filter, started]
      rw [ih]
      simp

/-- When both tasks are started, the cell holds the tag of the first entry of
the schedule. -/
theorem race_cell_true (e : Env) :
    race_cell e true = match e.sched with
      | [] => .Unset
      | who :: _ => who.tag := by
  unfold race_cell
  rw [run_claims_unset]
  have : e.sched.filter (started true) = e.sched := by
    apply List.filter_eq_self.mpr
    intro a _
    cases a <;> rfl
  rw [this]

/-- A task that was never activated is destroyed without touching a thread,
whatever its flags are. -/
theorem destroy_new (s a : Bool) : (optional_task.new s a).destroy = .ok [] := by
  cases s <;> cases a <;> rfl

/-- A task that was activated and stopped is destroyed without touching a thread. -/
theorem destroy_stopped : optional_task.destroy ⟨false, true, false⟩ = .ok [] := rfl

/-- Leaving `identify` with both tasks at rest adds nothing to the result. -/
theorem leave_of_rest (c p : optional_task) (r : Result)
    (hc : c.destroy = .ok []) (hp : p.destroy = .ok []) : leave c p r = r := by
  unfold leave
  rw [hp, hc]
  simp

/-- The face-first branch: the matcher task is joined, the password task, when
there is one, is cancelled and joined, and the result is that of `howdy_msg`
on the matcher's status. -/
theorem identify_race_howdy (e : Env) (username : String) (auth_tok : Bool)
    (h : race_cell e auth_tok = .Howdy) :
    identify_race e username auth_tok
      = Result.after
          ([.activate .child] ++ (if auth_tok then [.activate .pass] else []) ++ [.join .child]
            ++ (if auth_tok then [.pthread_cancel .pass, .join .pass] else []) ++ [.get .child])
          (howdy_msg username e.status e.reader (send_message e.conv)) := by
  unfold identify_race
  simp only [h]
  generalize howdy_msg username e.status e.reader (send_message e.conv) = r
  cases auth_tok
  · simp [optional_task.new, optional_task.activate, optional_task.stop, optional_task.get,
      Result.after, ThreadOp.event]
    have := leave_of_rest ⟨false, true, false⟩ (optional_task.new e.pass_flags.1 e.pass_flags.2) r
      destroy_stopped (destroy_new _ _)
    simp only [optional_task.new] at this
    rw [this]
    exact ⟨rfl, rfl⟩
  · simp [optional_task.new, optional_task.activate, optional_task.stop, optional_task.get,
      Result.after, ThreadOp.event]
    rw [leave_of_rest _ _ r destroy_stopped destroy_stopped]
    exact ⟨rfl, rfl⟩

/-- The password-first branch, both tasks started: the matcher is sent
`SIGTERM` if it did not finish within the grace period and its task is joined;
then, with the workaround `Input`, the password task is joined and its result
decides; with any other workaround the password task is still active when
`get` is called on it, and the assertion of `get` fails. -/
theorem identify_race_pam (e : Env) (username : String) (h : race_cell e true = .Pam) :
    identify_race e username true
      = Result.after
          ([.activate .child, .activate .pass]
            ++ (if e.wait_timeout then [.kill SIGTERM] else []) ++ [.join .child])
          (if e.reader.workaround = .Input then
            Result.after [.join .pass, .get .pass]
              (if e.pam_get_authtok.1 ≠ PAM_SUCCESS then ⟨.code e.pam_get_authtok.1, []⟩
               else Result.after [.get .child]
                (if e.pam_get_authtok.2.length = 0 then
                  howdy_msg username e.status e.reader (send_message e.conv)
                 else ⟨.code PAM_IGNORE, []⟩))
           else ⟨.fault .assertion, [.get .pass]⟩) := by
  unfold identify_race
  simp only [h]
  generalize howdy_msg username e.status e.reader (send_message e.conv) = r
  have hl := fun x => leave_of_rest ⟨false, true, false⟩ ⟨false, true, false⟩ x
    destroy_stopped destroy_stopped
  by_cases hw : e.reader.workaround = .Input
  · simp [hw, optional_task.new, optional_task.activate, optional_task.stop, optional_task.get,
      Result.after, ThreadOp.event, hl]
  · simp [hw, optional_task.new, optional_task.activate, optional_task.stop, optional_task.get,
      Result.after, ThreadOp.event]

/-- When no started task ever claims the cell, the coordinator waits for ever. -/
theorem identify_race_unset (e : Env) (username : String) (auth_tok : Bool)
    (h : race_cell e auth_tok = .Unset) :
    identify_race e username auth_tok
      = ⟨.blocked, [.activate .child] ++ (if auth_tok then [.activate .pass] else [])⟩ := by
  unfold identify_race
  simp only [h]
  cases auth_tok <;>
    simp [optional_task.new, optional_task.activate, Result.after]

/-- Past the gates, `identify` sends the detection notice if enabled, asks for
the user name, spawns the matcher and runs the race. -/
theorem identify_of_reaches_race (e : Env) (auth_tok : Bool) (h : reaches_race e = true) :
    identify e auth_tok
      = Result.after
          (detection_notice e.reader (send_message e.conv)
            ++ [.pam_get_user, .posix_spawnp e.pam_get_user.2])
          (identify_race e e.pam_get_user.2 (adjust_auth_tok e.reader.workaround auth_tok)) := by
  unfold reaches_race at h
  simp only [Bool.and_eq_true, beq_iff_eq, Bool.not_eq_true', decide_eq_false_iff_not] at h
  obtain ⟨⟨⟨⟨⟨⟨h1, h2⟩, h3⟩, h4⟩, h5⟩, h6⟩, h7⟩ := h
  unfold identify
  simp only [h1, h2, h3, h4, h5, h6, h7, ne_eq, not_true_eq_false, if_false, Bool.false_eq_true,
    Result.after, List.append_assoc, List.cons_append, List.nil_append]

/-- The events of `howdy_msg` are messages to the user and log entries: it
starts, cancels and joins nothing. -/
theorem howdy_msg_events (username : String) (status : Int) (reader : INIReader)
    (conv_function : ConvFunction) (t : TaskId) :
    Event.activate t ∉ (howdy_msg username status reader conv_function).events := by
  unfold howdy_msg
  split_ifs
  · unfold howdy_error
    split
    · simp only []
      split_ifs <;> simp [call_conv]
    · simp
  · simp only []
    rw [confirm_text_replace]
    simp [call_conv]
  · simp

/-- The way the race ends, in terms of the cell, the workaround, the matcher's
status and the result of the password task; the conversation function and the
notice setting do not occur. -/
theorem identify_race_ret (e : Env) (username : String) (auth_tok : Bool) :
    (identify_race e username auth_tok).ret
      = match race_cell e auth_tok with
        | .Unset => .blocked
        | .Howdy => if e.status = 0 then .code PAM_SUCCESS else .code PAM_AUTH_ERR
        | .Pam =>
          if auth_tok = true ∧ e.reader.workaround = .Input then
            if e.pam_get_authtok.1 ≠ PAM_SUCCESS then .code e.pam_get_authtok.1
            else if e.pam_get_authtok.2.length = 0 then
              if e.status = 0 then .code PAM_SUCCESS else .code PAM_AUTH_ERR
            else .code PAM_IGNORE
          else .fault .assertion := by
  cases hc : race_cell e auth_tok with
  | Unset => rw [identify_race_unset e username auth_tok hc]
  | Howdy =>
    rw [identify_race_howdy e username auth_tok hc]
    simp only [Result.after, howdy_msg_ret]
  | Pam =>
    cases auth_tok with
    | false =>
      rw [race_cell_false] at hc
      split_ifs at hc
    | true =>
      rw [identify_race_pam e username hc]
      simp only [Result.after, true_and]
      split_ifs <;> simp only [howdy_msg_ret, Result.after, *] <;> simp_all

/-- The way `identify` ends does not depend on the notice setting nor on the
conversation function. -/
theorem identify_ret_notice (e : Env) (auth_tok : Bool) (b : Bool) (conv₂ : ConvFunction) :
    (identify { e with reader := { e.reader with detection_notice := b }, conv := conv₂ }
        auth_tok).ret
      = (identify e auth_tok).ret := by
  unfold identify
  simp only []
  split_ifs <;> try rfl
  simp only [Result.after, identify_race_ret]
  rfl

/-! ## The preflight gates: claim C3 -/

/-- The detection notice starts nothing and asks for no user name. -/
theorem detection_notice_events (reader : INIReader) (conv_function : ConvFunction)
    (ev : Event) (h : ev ∈ detection_notice reader conv_function) :
    (∃ ty m r, ev = .conv ty m r) ∨ (∃ p f a, ev = .syslog p f a) := by
  unfold detection_notice at h
  split_ifs at h
  · simp only [call_conv, List.mem_cons, List.mem_singleton, List.not_mem_nil, or_false] at h
    rcases h with rfl | rfl
    · exact Or.inl ⟨_, _, _, rfl⟩
    · exact Or.inr ⟨_, _, _, rfl⟩
  · simp only [call_conv, List.mem_cons, List.mem_singleton, List.not_mem_nil, or_false] at h
    exact Or.inl ⟨_, _, _, h⟩
  · simp at h

/-- C3: once the conversation is acquired and the configuration parsed, the
gates are decided in the order disabled, remote session, closed lid. `identify`
returns `PAM_AUTHINFO_UNAVAIL` with one log entry, that of the first gate that
fires, and no other event (no user name asked, no matcher spawned, no task
started) when `disabled` is true, or else `ignore_ssh` is true and one of the
three variables is set, or else `ignore_closed_lid` is true and the text of a
lid state file contains "closed". It goes on to ask for the user name exactly
when none of the three holds, so it returns `PAM_AUTHINFO_UNAVAIL` before asking
for the user name exactly when one of them holds; and neither the value of
`detection_notice` nor the conversation function (what sending the notice
returns) changes how it ends. -/
theorem identify_gates (e : Env) (auth_tok : Bool)
    (hconv : e.pam_get_item = PAM_SUCCESS) (hparse : ¬ e.reader.ParseError < 0) :
    (e.reader.disabled = true →
      identify e auth_tok
        = ⟨.code PAM_AUTHINFO_UNAVAIL,
            [.syslog LOG_INFO "Skipped authentication, Howdy is disabled" []]⟩) ∧
    (e.reader.disabled = false →
      (e.reader.ignore_ssh = true ∧
        (e.SSH_CONNECTION ≠ none ∨ e.SSH_CLIENT ≠ none ∨ e.SSHD_OPTS ≠ none)) →
      identify e auth_tok
        = ⟨.code PAM_AUTHINFO_UNAVAIL,
            [.syslog LOG_INFO "Skipped authentication, SSH session detected" []]⟩) ∧
    (e.reader.disabled = false →
      ¬ (e.reader.ignore_ssh = true ∧
        (e.SSH_CONNECTION ≠ none ∨ e.SSH_CLIENT ≠ none ∨ e.SSHD_OPTS ≠ none)) →
      (e.reader.ignore_closed_lid = true ∧ ∃ s ∈ e.lid_states, "closed".data <:+: s.data) →
      identify e auth_tok
        = ⟨.code PAM_AUTHINFO_UNAVAIL,
            [.syslog LOG_INFO "Skipped authentication, closed lid detected" []]⟩) ∧
    (Event.pam_get_user ∈ (identify e auth_tok).events ↔
      ¬ (e.reader.disabled = true ∨
         (e.reader.ignore_ssh = true ∧
           (e.SSH_CONNECTION ≠ none ∨ e.SSH_CLIENT ≠ none ∨ e.SSHD_OPTS ≠ none)) ∨
         (e.reader.ignore_closed_lid = true ∧
           ∃ s ∈ e.lid_states, "closed".data <:+: s.data))) ∧
    (((identify e auth_tok).ret = .code PAM_AUTHINFO_UNAVAIL ∧
        Event.pam_get_user ∉ (identify e auth_tok).events) ↔
      (e.reader.disabled = true ∨
         (e.reader.ignore_ssh = true ∧
           (e.SSH_CONNECTION ≠ none ∨ e.SSH_CLIENT ≠ none ∨ e.SSHD_OPTS ≠ none)) ∨
         (e.reader.ignore_closed_lid = true ∧
           ∃ s ∈ e.lid_states, "closed".data <:+: s.data))) ∧
    (∀ (b : Bool) (conv₂ : ConvFunction),
      (identify { e with reader := { e.reader with detection_notice := b }, conv := conv₂ }
          auth_tok).ret
        = (identify e auth_tok).ret) := by
  have hssh : (e.reader.ignore_ssh &&
        (e.SSH_CONNECTION.isSome || e.SSH_CLIENT.isSome || e.SSHD_OPTS.isSome)) = true ↔
      (e.reader.ignore_ssh = true ∧
        (e.SSH_CONNECTION ≠ none ∨ e.SSH_CLIENT ≠ none ∨ e.SSHD_OPTS ≠ none)) := by
    simp only [Bool.and_eq_true, Bool.or_eq_true, Option.isSome_iff_ne_none, or_assoc]
  have hlid : (e.reader.ignore_closed_lid && lid_closed e.lid_states) = true ↔
      (e.reader.ignore_closed_lid = true ∧ ∃ s ∈ e.lid_states, "closed".data <:+: s.data) := by
    simp only [Bool.and_eq_true, lid_closed_iff]
  rw [← hssh, ← hlid]
  have h1 : e.reader.disabled = true →
      identify e auth_tok
        = ⟨.code PAM_AUTHINFO_UNAVAIL,
            [.syslog LOG_INFO "Skipped authentication, Howdy is disabled" []]⟩ := by
    intro hd
    unfold identify
    simp only [hconv, hparse, hd, ne_eq, not_true_eq_false, if_false, if_true]
  have h2 : e.reader.disabled = false →
      (e.reader.ignore_ssh &&
        (e.SSH_CONNECTION.isSome || e.SSH_CLIENT.isSome || e.SSHD_OPTS.isSome)) = true →
      identify e auth_tok
        = ⟨.code PAM_AUTHINFO_UNAVAIL,
            [.syslog LOG_INFO "Skipped authentication, SSH session detected" []]⟩ := by
    intro hd hs
    unfold identify
    simp only [hconv, hparse, hd, hs, ne_eq, not_true_eq_false, if_false, if_true,
      Bool.false_eq_true]
  have h3 : e.reader.disabled = false →
      ¬ (e.reader.ignore_ssh &&
        (e.SSH_CONNECTION.isSome || e.SSH_CLIENT.isSome || e.SSHD_OPTS.isSome)) = true →
      (e.reader.ignore_closed_lid && lid_closed e.lid_states) = true →
      identify e auth_tok
        = ⟨.code PAM_AUTHINFO_UNAVAIL,
            [.syslog LOG_INFO "Skipped authentication, closed lid detected" []]⟩ := by
    intro hd hs hl
    unfold identify
    simp only [hconv, hparse, hd, hs, hl, ne_eq, not_true_eq_false, if_false, if_true,
      Bool.false_eq_true]
  have h4 : Event.pam_get_user ∈ (identify e auth_tok).events ↔
      ¬ (e.reader.disabled = true ∨
         (e.reader.ignore_ssh &&
           (e.SSH_CONNECTION.isSome || e.SSH_CLIENT.isSome || e.SSHD_OPTS.isSome)) = true ∨
         (e.reader.ignore_closed_lid && lid_closed e.lid_states) = true) := by
    unfold identify
    simp only [hconv, hparse, ne_eq, not_true_eq_false, if_false]
    by_cases hd : e.reader.disabled = true
    · simp [hd]
    by_cases hs : (e.reader.ignore_ssh &&
        (e.SSH_CONNECTION.isSome || e.SSH_CLIENT.isSome || e.SSHD_OPTS.isSome)) = true
    · simp [hd, hs]
    by_cases hl : (e.reader.ignore_closed_lid && lid_closed e.lid_states) = true
    · simp [hd, hs, hl]
    · simp only [hd, hs, hl, if_false, Result.after, or_self, not_false_eq_true, iff_true]
      simp
  refine ⟨h1, h2, h3, h4, ?_, fun b conv₂ => identify_ret_notice e auth_tok b conv₂⟩
  constructor
  · rintro ⟨_, hno⟩
    exact not_not.mp (fun hn => hno (h4.mpr hn))
  · intro hcond
    refine ⟨?_, fun hmem => h4.mp hmem hcond⟩
    by_cases hd : e.reader.disabled = true
    · rw [h1 hd]
    have hd₂ : e.reader.disabled = false := by simpa using hd
    by_cases hs : (e.reader.ignore_ssh &&
        (e.SSH_CONNECTION.isSome || e.SSH_CLIENT.isSome || e.SSHD_OPTS.isSome)) = true
    · rw [h2 hd₂ hs]
    rcases hcond with hc | hc | hc
    · exact absurd hc hd
    · exact absurd hc hs
    · rw [h3 hd₂ hs hc]

/-- Witness of C3: the lid is closed, nothing else stops the attempt; `identify`
returns `PAM_AUTHINFO_UNAVAIL` and the only event is the log entry. -/
theorem identify_gates_witness :
    identify closed_lid_env true
      = ⟨.code PAM_AUTHINFO_UNAVAIL,
          [.syslog LOG_INFO "Skipped authentication, closed lid detected" []]⟩ :=
  (identify_gates closed_lid_env true rfl (by decide)).2.2.1 rfl (by decide)
    ⟨rfl, (lid_closed_iff _).mp (by decide)⟩

/-! ## The race: claims C7, C9, C2 -/

/-- C7: when the workaround is `Off` or the caller did not request password
input, the flag `auth_tok` is false when the tasks are started, so the
password task is never activated; the cell cannot become `Pam`; and once the
matcher task has claimed, `identify` joins it, reads its result and returns
what `howdy_msg` returns for the matcher's status. (If the matcher task never
claims, the coordinator waits for ever.) -/
theorem identify_face_only (e : Env) (auth_tok : Bool) (hreach : reaches_race e = true)
    (h : e.reader.workaround = .Off ∨ auth_tok = false) :
    adjust_auth_tok e.reader.workaround auth_tok = false ∧
    Event.activate .pass ∉ (identify e auth_tok).events ∧
    race_cell e (adjust_auth_tok e.reader.workaround auth_tok) ≠ .Pam ∧
    (TaskId.child ∈ e.sched →
      identify e auth_tok
        = Result.after
            (detection_notice e.reader (send_message e.conv)
              ++ [.pam_get_user, .posix_spawnp e.pam_get_user.2, .activate .child,
                  .join .child, .get .child])
            (howdy_msg e.pam_get_user.2 e.status e.reader (send_message e.conv)) ∧
      (identify e auth_tok).ret
        = (howdy_msg e.pam_get_user.2 e.status e.reader (send_message e.conv)).ret) ∧
    (TaskId.child ∉ e.sched →
      identify e auth_tok
        = ⟨.blocked, detection_notice e.reader (send_message e.conv)
              ++ [.pam_get_user, .posix_spawnp e.pam_get_user.2, .activate .child]⟩) := by
  have ha : adjust_auth_tok e.reader.workaround auth_tok = false := by
    unfold adjust_auth_tok
    rcases h with h | h
    · rw [h]
      cases auth_tok <;> rfl
    · rw [h]
      simp
  have hnotice : Event.activate .pass ∉ detection_notice e.reader (send_message e.conv) := by
    intro hm
    rcases detection_notice_events _ _ _ hm with ⟨_, _, _, hx⟩ | ⟨_, _, _, hx⟩ <;>
      exact Event.noConfusion hx
  rw [identify_of_reaches_race e auth_tok hreach, ha]
  have hcell := race_cell_false e
  by_cases hc : TaskId.child ∈ e.sched
  · rw [if_pos hc] at hcell
    rw [identify_race_howdy e _ false hcell]
    refine ⟨rfl, ?_, ?_, fun _ => ⟨?_, rfl⟩, fun hn => absurd hc hn⟩
    · simp only [Result.after, List.mem_append, not_or]
      exact ⟨⟨hnotice, by simp⟩, by simp, howdy_msg_events _ _ _ _ _⟩
    · rw [hcell]
      decide
    · simp [Result.after]
  · rw [if_neg hc] at hcell
    rw [identify_race_unset e _ false hcell]
    refine ⟨rfl, ?_, ?_, fun hn => absurd hn hc, fun _ => ?_⟩
    · simp only [Result.after, List.mem_append, not_or]
      exact ⟨⟨hnotice, by simp⟩, by simp⟩
    · rw [hcell]
      decide
    · simp [Result.after]

/-- Witness of C7: the sample attempt through `pam_sm_open_session`, which
passes `auth_tok = false`. -/
theorem identify_face_only_witness :
    identify sample_env false
      = Result.after
          (detection_notice sample_env.reader (send_message sample_env.conv)
            ++ [.pam_get_user, .posix_spawnp "bob", .activate .child, .join .child, .get .child])
          (howdy_msg "bob" 0 sample_env.reader (send_message sample_env.conv)) :=
  ((identify_face_only sample_env false (by decide) (Or.inr rfl)).2.2.2.1 (by decide)).1

/-- C9 (the code departs from the claim): with the workaround `Native` and the
password task first to claim, `identify` starts both tasks, joins the matcher
task, and calls `get` on the password task without having stopped it: the
assertion of `get` fails. -/
theorem identify_get_before_stop (e : Env) (hreach : reaches_race e = true)
    (hw : e.reader.workaround = .Native) (hpam : race_cell e true = .Pam) :
    identify e true
      = ⟨.fault .assertion,
          detection_notice e.reader (send_message e.conv)
            ++ [.pam_get_user, .posix_spawnp e.pam_get_user.2, .activate .child, .activate .pass]
            ++ (if e.wait_timeout then [.kill SIGTERM] else [])
            ++ [.join .child, .get .pass]⟩ := by
  have ha : adjust_auth_tok e.reader.workaround true = true := by
    rw [hw]
    rfl
  rw [identify_of_reaches_race e true hreach, ha, identify_race_pam e _ hpam, hw]
  simp [Result.after]

/-- Witness of C9: the sample attempt with the workaround `native`. -/
theorem identify_get_before_stop_witness :
    identify native_env true
      = ⟨.fault .assertion,
          detection_notice native_env.reader (send_message native_env.conv)
            ++ [.pam_get_user, .posix_spawnp native_env.pam_get_user.2, .activate .child,
                .activate .pass]
            ++ (if native_env.wait_timeout then [.kill SIGTERM] else [])
            ++ [.join .child, .get .pass]⟩ :=
  identify_get_before_stop native_env (by decide) rfl (by decide)

/-- C2 (the code departs from the claim): the password task claims first, the
password retrieval succeeds with a non-empty password, the matcher has exited
with code 0, and the workaround is `native`. The claim gives the decision
`PAM_IGNORE`; `identify` gives none, it stops at the failed assertion of
`pass_task.get()`. -/
theorem identify_password_first_native :
    race_cell native_env true = .Pam ∧
    native_env.pam_get_authtok = (PAM_SUCCESS, "hunter2") ∧
    identify native_env true
      = ⟨.fault .assertion,
          [.pam_get_user, .posix_spawnp "bob", .activate .child, .activate .pass,
           .join .child, .get .pass]⟩ := by
  decide

/-- The password-first branch with the workaround `Input`: the result of the
password retrieval if it failed; otherwise `PAM_IGNORE` for a non-empty
password; otherwise what `howdy_msg` gives for the matcher's status. -/
theorem identify_password_first_input (e : Env) (hreach : reaches_race e = true)
    (hw : e.reader.workaround = .Input) (hpam : race_cell e true = .Pam) :
    identify e true
      = Result.after
          (detection_notice e.reader (send_message e.conv)
            ++ [.pam_get_user, .posix_spawnp e.pam_get_user.2, .activate .child, .activate .pass]
            ++ (if e.wait_timeout then [.kill SIGTERM] else [])
            ++ [.join .child, .join .pass, .get .pass])
          (if e.pam_get_authtok.1 ≠ PAM_SUCCESS then ⟨.code e.pam_get_authtok.1, []⟩
           else if e.pam_get_authtok.2.length ≠ 0 then ⟨.code PAM_IGNORE, [.get .child]⟩
           else Result.after [.get .child]
              (howdy_msg e.pam_get_user.2 e.status e.reader (send_message e.conv))) := by
  have ha : adjust_auth_tok e.reader.workaround true = true := by
    rw [hw]
    rfl
  rw [identify_of_reaches_race e true hreach, ha, identify_race_pam e _ hpam, hw]
  simp only [if_true, Result.after]
  split_ifs <;> first | contradiction | simp

/-- The sample attempt: the password wins, the decision is `PAM_IGNORE`. -/
theorem identify_password_first_input_witness :
    identify sample_env true
      = Result.after
          (detection_notice sample_env.reader (send_message sample_env.conv)
            ++ [.pam_get_user, .posix_spawnp sample_env.pam_get_user.2, .activate .child,
                .activate .pass]
            ++ (if sample_env.wait_timeout then [.kill SIGTERM] else [])
            ++ [.join .child, .join .pass, .get .pass])
          (if sample_env.pam_get_authtok.1 ≠ PAM_SUCCESS then
             ⟨.code sample_env.pam_get_authtok.1, []⟩
           else if sample_env.pam_get_authtok.2.length ≠ 0 then ⟨.code PAM_IGNORE, [.get .child]⟩
           else Result.after [.get .child]
              (howdy_msg sample_env.pam_get_user.2 sample_env.status sample_env.reader
                (send_message sample_env.conv))) :=
  identify_password_first_input sample_env (by decide) rfl (by decide)

/-- With the workaround `Off` or `Input`, no call of `get` made by `identify`
fails its assertion, whoever wins the race. -/
theorem identify_no_usage_fault (e : Env) (auth_tok : Bool)
    (hw : e.reader.workaround ≠ .Native) :
    (identify e auth_tok).ret ≠ .fault .assertion := by
  unfold identify
  simp only []
  split_ifs <;> try (simp only [Result.after]; exact fun hc => Ret.noConfusion hc)
  simp only [Result.after, identify_race_ret]
  cases hc : race_cell e (adjust_auth_tok e.reader.workaround auth_tok) with
  | Unset => exact fun hc => Ret.noConfusion hc
  | Howdy => split_ifs <;> exact fun hc => Ret.noConfusion hc
  | Pam =>
    have hadj : adjust_auth_tok e.reader.workaround auth_tok = true := by
      cases hx : adjust_auth_tok e.reader.workaround auth_tok with
      | true => rfl
      | false =>
        rw [hx, race_cell_false] at hc
        split_ifs at hc
    have hin : e.reader.workaround = .Input := by
      unfold adjust_auth_tok at hadj
      cases hk : e.reader.workaround with
      | Off =>
        rw [hk] at hadj
        cases auth_tok <;> simp at hadj
      | Input => rfl
      | Native => exact absurd hk hw
    have hcond : adjust_auth_tok e.reader.workaround auth_tok = true ∧
        e.reader.workaround = .Input := ⟨hadj, hin⟩
    simp only [if_pos hcond]
    split_ifs <;> simp

/-- The sample attempt ends without a usage fault. -/
theorem identify_no_usage_fault_witness :
    (identify sample_env true).ret ≠ .fault .assertion :=
  identify_no_usage_fault sample_env true (by decide)

end Howdy
